import Mathlib

/-
Verification of the run-state reconciliation engine of the
scailfin/benchmark-reana-backend repository.

The embedding covers:
* the run lifecycle state (`RunState`), modelled from the specification of the
  state classes (`benchtmpl.workflow.state` / `flowserv.model.workflow.state`,
  which are external dependencies of this repository);
* the remote-status classifier `modify_state` from `flowservreana/client.py`;
* the engine operations `get_state`, `cancel_run` and `execute` from
  `benchreana/engine.py`, with the remote REANA client modelled as an oracle
  that supplies the status response and the outcome of each remote call;
* the file uploader `upload_file` from `benchreana/client.py`.

Timestamps are natural numbers; the engine never interprets them, it only
copies them around.  Remote calls and local writes are recorded explicitly so
that frame properties ("no remote call", "no write") are statements about the
returned traces.
-/

namespace BenchReana

abbrev Time := Nat

/-- Lifecycle stage of a run (the variant tag of a workflow state). -/
inductive Stage where
  | pending
  | running
  | error
  | success
deriving DecidableEq, Repr

/-- Run state, one variant per lifecycle stage.  Modelled from the spec:
the `StatePending` / `StateRunning` / `StateError` / `StateSuccess` classes of
`benchtmpl.workflow.state` (and the equivalent `flowserv` state classes) are
external dependencies; the spec fixes their fields in §3.  Resources are an
association list from a declared output name to its local file location. -/
inductive RunState where
  | pending (createdAt : Time)
  | running (createdAt startedAt : Time)
  | error (createdAt startedAt stoppedAt : Time) (messages : List String)
  | success (createdAt startedAt finishedAt : Time) (resources : List (String × String))
deriving DecidableEq, Repr

namespace RunState

/-- Modelled from the spec: `is_active()` is true for Pending and Running. -/
def is_active : RunState → Bool
  | pending _ => true
  | running _ _ => true
  | _ => false

/-- Modelled from the spec: predicate for the Pending variant. -/
def is_pending : RunState → Bool
  | pending _ => true
  | _ => false

/-- Modelled from the spec: predicate for the Running variant. -/
def is_running : RunState → Bool
  | running _ _ => true
  | _ => false

/-- Modelled from the spec: predicate for the Error variant. -/
def is_error : RunState → Bool
  | error _ _ _ _ => true
  | _ => false

/-- Modelled from the spec: predicate for the Success variant. -/
def is_success : RunState → Bool
  | success _ _ _ _ => true
  | _ => false

/-- Variant tag of a state. -/
def stage : RunState → Stage
  | pending _ => Stage.pending
  | running _ _ => Stage.running
  | error _ _ _ _ => Stage.error
  | success _ _ _ _ => Stage.success

/-- Creation timestamp (present in every variant). -/
def created_at : RunState → Time
  | pending c => c
  | running c _ => c
  | error c _ _ _ => c
  | success c _ _ _ => c

/-- Start timestamp; a Pending state has none (in Python the attribute is
absent on `StatePending`). -/
def started_at : RunState → Option Time
  | pending _ => none
  | running _ s => some s
  | error _ s _ _ => some s
  | success _ s _ _ => some s

/-- Start timestamp with a default, used where the Python code reads
`state.started_at` only under an `is_running()` guard. -/
def started_at_or (st : RunState) (d : Time) : Time :=
  (st.started_at).getD d

/-- Error messages; empty for every variant other than Error. -/
def messages : RunState → List String
  | error _ _ _ m => m
  | _ => []

/-- Produced resources; empty for every variant other than Success (in Python
only `StateSuccess` carries a `resources` attribute). -/
def resources : RunState → List (String × String)
  | success _ _ _ r => r
  | _ => []

/-- Modelled from the spec: `start()` of a Pending state produces a Running
state, preserving `createdAt` and stamping `startedAt` with the current time
(§4.1; only ever invoked on a Pending state by `modify_state`). -/
def start (st : RunState) (t : Time) : RunState :=
  match st with
  | pending c => running c t
  | s => s

/-- Modelled from the spec: `toError(messages, at)` preserves `createdAt` and
`startedAt` from the state being replaced; a missing `startedAt` is backfilled
with the classification timestamp (§3, §4.1). -/
def to_error (st : RunState) (msgs : List String) (t : Time) : RunState :=
  match st with
  | pending c => error c t t msgs
  | running c s => error c s t msgs
  | error c s _ _ => error c s t msgs
  | success c s _ _ => error c s t msgs

/-- Modelled from the spec: `toSuccess(resources, at)` preserves `createdAt`
and `startedAt` from the state being replaced; a missing `startedAt` is
backfilled with the classification timestamp (§3, §4.1). -/
def to_success (st : RunState) (res : List (String × String)) (t : Time) : RunState :=
  match st with
  | pending c => success c t t res
  | running c s => success c s t res
  | error c s _ _ => success c s t res
  | success c s _ _ => success c s t res

end RunState

/-- From `flowservreana/client.py` and `benchreana/client.py` (identical
lists): raw REANA status tokens that map to the Pending category. -/
def REANA_STATE_PENDING : List String := ["created", "queued"]

/-- Raw REANA status tokens that map to the Running category. -/
def REANA_STATE_RUNNING : List String := ["running"]

/-- Raw REANA status tokens that map to the Error category. -/
def REANA_STATE_ERROR : List String := ["failed", "stopped", "deleted"]

/-- Raw REANA status tokens that map to the Success category. -/
def REANA_STATE_SUCCESS : List String := ["finished"]

/-- A REANA status response: the `status` element is read with `.get` (so it
may be absent) and the `logs` element is optional. -/
structure StatusResponse where
  status : Option String
  logs : Option String
deriving DecidableEq, Repr

/-- Membership of an optional raw status token in a vocabulary list; a missing
token is in no vocabulary (in Python, `None in [...]` is false). -/
def statusIn (status : Option String) (vocab : List String) : Bool :=
  match status with
  | some s => vocab.contains s
  | none => false

/-- Shallow embedding of `flowservreana.client.modify_state`: classify the
response's status token against the current workflow state, first match wins.
The state-changing timestamp `now` is passed explicitly (the Python state
methods stamp the current time internally). -/
def modify_state (response : StatusResponse) (current_state : RunState) (now : Time) :
    RunState :=
  if statusIn response.status REANA_STATE_RUNNING && current_state.is_pending then
    current_state.start now
  else if statusIn response.status REANA_STATE_ERROR && current_state.is_active then
    RunState.to_error current_state [(response.logs).getD "unknown reason"] now
  else if statusIn response.status REANA_STATE_SUCCESS && current_state.is_active then
    RunState.to_success current_state [] now
  else
    current_state

/-- The content of a run's `state.json` object as the engine reads and writes
it: the REANA workflow identifier, the declared output file names and the
current workflow state (`benchreana/engine.py`, labels `workflowId`,
`outputs`, `state`). -/
structure RunObj where
  workflowId : String
  outputs : List String
  state : RunState
deriving DecidableEq, Repr

/-- Errors surfaced by the engine.  `keyError` and `nameError` stand for the
Python `KeyError` / `NameError` exceptions, `reanaBackendError` for
`benchreana.error.REANABackendError`, `unknownRun` for
`benchtmpl.error.UnknownRunError`; the remaining variants stand for the
validation, template-substitution and local-storage failures that `execute`
can encounter. -/
inductive EngineError where
  | unknownRun (run_id : String)
  | keyError (key : String)
  | reanaBackendError (msg : String)
  | nameError (name : String)
  | missingArgumentError
  | invalidTemplateError
  | storageError
deriving DecidableEq, Repr

/-- One remote REANA client call issued by the engine. -/
inductive RemoteCall where
  | getStatus (workflow_id : String)
  | download (workflow_id source : String)
  | stop (workflow_id : String)
  | create
  | start (workflow_id : String)
  | upload (workflow_id source target : String)
deriving DecidableEq, Repr

/-- Oracle for one `get_state` poll: the status response the remote cluster
returns, the current wall-clock time, and whether downloading a given source
file succeeds (`download_ok f = false` models `REANAClient.download_file`
raising `REANABackendError` for `f`). -/
structure StatusOracle where
  response : StatusResponse
  now : Time
  download_ok : String → Bool

deriving instance DecidableEq for Except

/-- Outcome of one engine operation on a run: the returned value (Python
`cancel_run` falls off the end and returns `None` on its main path, hence the
`Option`), the new `state.json` object written, if any, and the remote calls
issued. -/
structure StepOut where
  ret : Except EngineError (Option RunState)
  write : Option RunObj
  calls : List RemoteCall
deriving DecidableEq, Repr

/-- `os.path.join` for the paths the engine builds. -/
def pjoin (a b : String) : String := a ++ "/" ++ b

/-- The download loop of `get_state`'s success branch: for each declared
output `source`, download it to `files_dir/source` and record
`resources[source] = target`; the first failing download aborts the loop with
`REANABackendError` (the error message, `str(ex)` in Python, is modelled by
the name of the failing source).  Returns the resources in insertion order
together with the download calls issued. -/
def download_results (o : StatusOracle) (wid files_dir : String) :
    List String → Except EngineError (List (String × String)) × List RemoteCall
  | [] => (Except.ok [], [])
  | source :: rest =>
    let target := pjoin files_dir source
    if o.download_ok source then
      match download_results o wid files_dir rest with
      | (Except.ok resources, calls) =>
        (Except.ok ((source, target) :: resources), RemoteCall.download wid source :: calls)
      | (Except.error e, calls) =>
        (Except.error e, RemoteCall.download wid source :: calls)
    else
      (Except.error (EngineError.reanaBackendError source), [RemoteCall.download wid source])

/-- Shallow embedding of `REANAWorkflowEngine.get_state` after the stored
object has been loaded (the load itself is `get_state` below).  Inactive
states return unchanged with no remote call and no write.  Otherwise the
status response is classified by the engine's own first-match chain; on an
error classification the Python code reads `response['logs']`, which raises
`KeyError` when the response has no logs element (when present, the logs text
is carried as the single element of the messages list). -/
def get_state_obj (o : StatusOracle) (base_dir run_id : String) (obj : RunObj) : StepOut :=
  let state := obj.state
  if !state.is_active then
    ⟨Except.ok (some state), none, []⟩
  else
    let workflow_id := obj.workflowId
    let reana_status := o.response.status
    let ts := o.now
    let started_at := if state.is_running then state.started_at_or 0 else ts
    if statusIn reana_status REANA_STATE_RUNNING && !state.is_running then
      let st := RunState.running state.created_at started_at
      ⟨Except.ok (some st), some { obj with state := st }, [RemoteCall.getStatus workflow_id]⟩
    else if statusIn reana_status REANA_STATE_ERROR then
      match o.response.logs with
      | none =>
        ⟨Except.error (EngineError.keyError "logs"), none, [RemoteCall.getStatus workflow_id]⟩
      | some logs =>
        let st := RunState.error state.created_at started_at ts [logs]
        ⟨Except.ok (some st), some { obj with state := st }, [RemoteCall.getStatus workflow_id]⟩
    else if statusIn reana_status REANA_STATE_SUCCESS then
      let files_dir := pjoin (pjoin base_dir run_id) "files"
      match download_results o workflow_id files_dir obj.outputs with
      | (Except.ok resources, dcalls) =>
        let st := RunState.success state.created_at started_at ts resources
        ⟨Except.ok (some st), some { obj with state := st },
          RemoteCall.getStatus workflow_id :: dcalls⟩
      | (Except.error e, dcalls) =>
        ⟨Except.error e, none, RemoteCall.getStatus workflow_id :: dcalls⟩
    else
      ⟨Except.ok (some state), none, [RemoteCall.getStatus workflow_id]⟩

/-- Shallow embedding of `REANAWorkflowEngine.get_state`: look the run up in
the store (the base directory), raising `UnknownRunError` when its directory
is absent, then reconcile the stored object. -/
def get_state (store : String → Option RunObj) (o : StatusOracle)
    (base_dir run_id : String) : StepOut :=
  match store run_id with
  | none => ⟨Except.error (EngineError.unknownRun run_id), none, []⟩
  | some obj => get_state_obj o base_dir run_id obj

/-- Shallow embedding of `REANAWorkflowEngine.cancel_run`: inactive runs are
returned unchanged; for a Running run a remote stop is issued first, and
`REANAClient.stop_workflow` wraps any failure into a raised
`REANABackendError` (`stop_result` is that call's outcome), which aborts
`cancel_run` before anything is written.  Otherwise — a Pending run issues no
stop call — the state becomes Error with the single message
`"canceled by user"`, the new object is written, and the function falls off
the end (returning `None`).  The Python code shares the write tail between
the Running and Pending paths; it is duplicated here across the two match
arms. -/
def cancel_run (store : String → Option RunObj) (stop_result : Except String Unit)
    (now : Time) (run_id : String) : StepOut :=
  match store run_id with
  | none => ⟨Except.error (EngineError.unknownRun run_id), none, []⟩
  | some obj =>
    let state := obj.state
    if !state.is_active then
      ⟨Except.ok (some state), none, []⟩
    else if state.is_running then
      match stop_result with
      | Except.error msg =>
        ⟨Except.error (EngineError.reanaBackendError msg), none,
          [RemoteCall.stop obj.workflowId]⟩
      | Except.ok _ =>
        let st := RunState.to_error state ["canceled by user"] now
        ⟨Except.ok none, some { obj with state := st }, [RemoteCall.stop obj.workflowId]⟩
    else
      let st := RunState.to_error state ["canceled by user"] now
      ⟨Except.ok none, some { obj with state := st }, []⟩

/-- The persisted object after one `get_state` poll: the written object when
the poll persisted a change, the unchanged object otherwise (also when the
poll raised, since the write happens last in the Python code). -/
def poll_step (o : StatusOracle) (base_dir run_id : String) (obj : RunObj) : RunObj :=
  match (get_state_obj o base_dir run_id obj).write with
  | some w => w
  | none => obj

/-- The trajectory of persisted objects over a sequence of polls, starting
from `obj` (the initial object included). -/
def poll_trace (base_dir run_id : String) : RunObj → List StatusOracle → List RunObj
  | obj, [] => [obj]
  | obj, o :: os => obj :: poll_trace base_dir run_id (poll_step o base_dir run_id obj) os

/-- Active stages (spec glossary: Pending or Running). -/
def Stage.isActive : Stage → Bool
  | Stage.pending => true
  | Stage.running => true
  | _ => false

/-- Classifier output category: a target stage or no change. -/
inductive StateChange where
  | toRunning
  | toError
  | toSuccess
  | noChange
deriving DecidableEq, Repr

/-- The classifier target table as the specification words it (§4.2), an
ordered first-match-wins table over the raw token and the current stage, with
rule 1 requiring the current state to be active and not already Running (for
an active state that means Pending). -/
def classifier_table (status : Option String) (s : Stage) : StateChange :=
  if statusIn status REANA_STATE_RUNNING && (s.isActive && !(s == Stage.running)) then
    StateChange.toRunning
  else if statusIn status REANA_STATE_ERROR && s.isActive then
    StateChange.toError
  else if statusIn status REANA_STATE_SUCCESS && s.isActive then
    StateChange.toSuccess
  else
    StateChange.noChange

/-- A local file-system tree passed to the uploader: a plain file or a
directory of entries. -/
inductive FSEntry where
  | file (name : String)
  | dir (name : String) (entries : List FSEntry)

mutual

/-- Shallow embedding of `benchreana.client.REANAClient.upload_file`.  For a
directory source the call recurses into every entry (the Python code
enumerates them with `os.walk`; the enumeration is modelled by structural
recursion over the tree, which agrees with the code on whether any leaf file
is reached).  For a plain-file source the Python code evaluates
`open(soure, 'rb')` — the name `soure` is undefined, so a `NameError` is
raised before `reana.upload_file` is called, and since only the inner
`reana.upload_file` call sits in the `try` block, the `NameError` is not
wrapped as `REANABackendError`. -/
def upload_file (workflow_id : String) :
    FSEntry → Except EngineError Unit × List RemoteCall
  | FSEntry.file _ => (Except.error (EngineError.nameError "soure"), [])
  | FSEntry.dir _ entries => upload_entries workflow_id entries

/-- Upload a list of directory entries in order; the first failure aborts. -/
def upload_entries (workflow_id : String) :
    List FSEntry → Except EngineError Unit × List RemoteCall
  | [] => (Except.ok (), [])
  | e :: rest =>
    match upload_file workflow_id e with
    | (Except.ok _, calls) =>
      match upload_entries workflow_id rest with
      | (r, calls2) => (r, calls ++ calls2)
    | (Except.error er, calls) => (Except.error er, calls)

end

mutual

/-- Whether a file-system tree contains at least one plain file. -/
def hasFile : FSEntry → Bool
  | FSEntry.file _ => true
  | FSEntry.dir _ entries => hasFileList entries

/-- Whether any entry of a list contains at least one plain file. -/
def hasFileList : List FSEntry → Bool
  | [] => false
  | e :: rest => hasFile e || hasFileList rest

end

/-- Oracle for one `execute` invocation: whether argument validation and
template substitution succeed, the generated run identifier, the outcome of
the remote workflow creation (error message or workflow identifier), the
resolved input-file sources to upload, whether the remote start and the local
state write succeed, the current time, and the declared output files of the
workflow specification. -/
structure ExecOracle where
  validate_ok : Bool
  identifier : String
  replace_ok : Bool
  create_result : Except String String
  uploads : List FSEntry
  start_ok : Bool
  write_ok : Bool
  now : Time
  outputs : List String

/-- Outcome of one `execute` invocation: the returned run identifier or
error, whether the run directory was ever created, whether it still exists on
return, the surviving `state.json` object, if any, and the remote calls
issued. -/
structure ExecOut where
  ret : Except EngineError String
  dir_created : Bool
  dir_exists : Bool
  write : Option RunObj
  calls : List RemoteCall
deriving DecidableEq, Repr

/-- Shallow embedding of `REANAWorkflowEngine.execute`.  Argument validation
runs before the run directory is created; every later step sits in the `try`
block whose handler removes the run directory with `shutil.rmtree` and
re-raises the original exception, so on any such failure the directory is
gone and no state object survives. -/
def execute (o : ExecOracle) : ExecOut :=
  if !o.validate_ok then
    ⟨Except.error EngineError.missingArgumentError, false, false, none, []⟩
  else if !o.replace_ok then
    ⟨Except.error EngineError.invalidTemplateError, true, false, none, []⟩
  else
    match o.create_result with
    | Except.error msg =>
      ⟨Except.error (EngineError.reanaBackendError msg), true, false, none, [RemoteCall.create]⟩
    | Except.ok workflow_id =>
      match upload_entries workflow_id o.uploads with
      | (Except.error e, ucalls) =>
        ⟨Except.error e, true, false, none, RemoteCall.create :: ucalls⟩
      | (Except.ok _, ucalls) =>
        if !o.start_ok then
          ⟨Except.error (EngineError.reanaBackendError "start"), true, false, none,
            RemoteCall.create :: ucalls ++ [RemoteCall.start workflow_id]⟩
        else if !o.write_ok then
          ⟨Except.error EngineError.storageError, true, false, none,
            RemoteCall.create :: ucalls ++ [RemoteCall.start workflow_id]⟩
        else
          ⟨Except.ok o.identifier, true, true,
            some ⟨workflow_id, o.outputs, RunState.pending o.now⟩,
            RemoteCall.create :: ucalls ++ [RemoteCall.start workflow_id]⟩

/-- Stage order along the lifecycle chain Pending → Running → {Error,
Success}: `Stage.le a b` holds when observing stage `a` and later stage `b`
is consistent with the chain (no regression, and the two terminal stages are
mutually unreachable). -/
def Stage.le : Stage → Stage → Bool
  | Stage.pending, _ => true
  | Stage.running, Stage.pending => false
  | Stage.running, _ => true
  | Stage.error, Stage.error => true
  | Stage.error, _ => false
  | Stage.success, Stage.success => true
  | Stage.success, _ => false

/-! Concrete fixtures for closed instantiations. -/

/-- A stored object in a terminal Error state. -/
def termObj : RunObj := ⟨"wf-1", ["a.txt"], RunState.error 1 2 3 ["boom"]⟩

/-- A stored object in the initial Pending state. -/
def pendObj : RunObj := ⟨"wf-2", ["a.txt", "b.txt"], RunState.pending 1⟩

/-- A stored object in a Running state. -/
def runObj : RunObj := ⟨"wf-3", ["a.txt", "b.txt"], RunState.running 1 2⟩

/-- A singleton store holding the given object under run identifier `r1`. -/
def store1 (obj : RunObj) : String → Option RunObj :=
  fun i => if i = "r1" then some obj else none

/-- A status oracle answering `running` with no logs; downloads succeed. -/
def oracleRunning : StatusOracle := ⟨⟨some "running", none⟩, 5, fun _ => true⟩

/-- A status oracle answering `finished`; downloads succeed. -/
def oracleFinished : StatusOracle := ⟨⟨some "finished", none⟩, 9, fun _ => true⟩

/-- A status oracle answering `finished` where downloading `b.txt` fails. -/
def oracleFinishedBad : StatusOracle := ⟨⟨some "finished", none⟩, 9, fun f => f ≠ "b.txt"⟩

/-! Helper lemmas -/

theorem download_results_ok_spec (o : StatusOracle) (wid files_dir : String)
    (outs : List String) (res : List (String × String)) (calls : List RemoteCall)
    (h : download_results o wid files_dir outs = (Except.ok res, calls)) :
    res.map Prod.fst = outs ∧ ∀ p ∈ res, p.2 = pjoin files_dir p.1 := by
  induction outs generalizing res calls with
  | nil =>
    simp only [download_results, Prod.mk.injEq, Except.ok.injEq] at h
    obtain ⟨h1, -⟩ := h
    subst h1
    simp
  | cons source rest ih =>
    simp only [download_results] at h
    by_cases hd : o.download_ok source = true
    · rw [if_pos hd] at h
      cases hrec : download_results o wid files_dir rest with
      | mk r cs =>
        rw [hrec] at h
        cases r with
        | ok rs =>
          simp only [Prod.mk.injEq, Except.ok.injEq] at h
          obtain ⟨h1, -⟩ := h
          subst h1
          obtain ⟨hmap, hval⟩ := ih rs cs hrec
          refine ⟨by simp [hmap], ?_⟩
          intro p hp
          rcases List.mem_cons.mp hp with hp | hp
          · subst hp; rfl
          · exact hval p hp
        | error e => simp at h
    · rw [if_neg hd] at h
      simp at h

theorem download_results_fail_spec (o : StatusOracle) (wid files_dir : String)
    (outs : List String) (hfail : ∃ f ∈ outs, o.download_ok f = false) :
    ∃ m calls,
      download_results o wid files_dir outs =
        (Except.error (EngineError.reanaBackendError m), calls) := by
  induction outs with
  | nil => simp at hfail
  | cons source rest ih =>
    by_cases hd : o.download_ok source = true
    · have hrest : ∃ f ∈ rest, o.download_ok f = false := by
        obtain ⟨f, hf, hff⟩ := hfail
        rcases List.mem_cons.mp hf with hf | hf
        · subst hf; rw [hd] at hff; cases hff
        · exact ⟨f, hf, hff⟩
      obtain ⟨m, calls, hrec⟩ := ih hrest
      exact ⟨m, RemoteCall.download wid source :: calls, by
        simp only [download_results, if_pos hd, hrec]⟩
    · refine ⟨source, [RemoteCall.download wid source], ?_⟩
      simp only [download_results, if_neg hd]

theorem statusIn_success_eq (s : Option String)
    (h : statusIn s REANA_STATE_SUCCESS = true) : s = some "finished" := by
  cases s with
  | none => simp [statusIn] at h
  | some v =>
    simp only [statusIn, REANA_STATE_SUCCESS] at h
    simp at h
    rw [h]

theorem to_error_stage (st : RunState) (msgs : List String) (t : Time) :
    (st.to_error msgs t).stage = Stage.error := by
  cases st <;> rfl

theorem to_error_messages (st : RunState) (msgs : List String) (t : Time) :
    (st.to_error msgs t).messages = msgs := by
  cases st <;> rfl

theorem to_error_created_at (st : RunState) (msgs : List String) (t : Time) :
    (st.to_error msgs t).created_at = st.created_at := by
  cases st <;> rfl

theorem to_error_started_at (st : RunState) (msgs : List String) (t s : Time)
    (h : st.started_at = some s) : (st.to_error msgs t).started_at = some s := by
  cases st <;> simp [RunState.started_at, RunState.to_error] at h ⊢ <;> exact h

/-! Claim theorems -/

/-- C4: for every run whose persisted stage is terminal (not active),
`get_state` returns the stored state, issues zero remote calls and performs
no write; repeating the poll any number of times leaves the stored object
unchanged. -/
theorem get_state_terminal_idempotent (store : String → Option RunObj)
    (o : StatusOracle) (base_dir run_id : String) (obj : RunObj)
    (hload : store run_id = some obj) (hterm : obj.state.is_active = false) :
    get_state store o base_dir run_id = ⟨Except.ok (some obj.state), none, []⟩ ∧
    ∀ n, (poll_step o base_dir run_id)^[n] obj = obj := by
  have hobj : get_state_obj o base_dir run_id obj = ⟨Except.ok (some obj.state), none, []⟩ := by
    simp [get_state_obj, hterm]
  have hstep : poll_step o base_dir run_id obj = obj := by
    simp [poll_step, hobj]
  refine ⟨by simp [get_state, hload, hobj], ?_⟩
  intro n
  induction n with
  | zero => rfl
  | succ n ih => rw [Function.iterate_succ_apply, hstep, ih]

theorem get_state_terminal_idempotent_witness :
    get_state (store1 termObj) oracleRunning "base" "r1" =
      ⟨Except.ok (some termObj.state), none, []⟩ ∧
    (poll_step oracleRunning "base" "r1")^[3] termObj = termObj := by
  have h := get_state_terminal_idempotent (store1 termObj) oracleRunning "base" "r1"
    termObj (by decide) (by decide)
  exact ⟨h.1, h.2 3⟩

/-- C9: cancelling a run already in a terminal state returns the stored
state, performs no write (the record is unchanged) and issues no remote stop
call, whatever the remote stop call would have answered. -/
theorem cancel_run_terminal_noop (store : String → Option RunObj)
    (stop_result : Except String Unit) (now : Time)
    (run_id : String) (obj : RunObj) (hload : store run_id = some obj)
    (hterm : obj.state.is_active = false) :
    cancel_run store stop_result now run_id = ⟨Except.ok (some obj.state), none, []⟩ := by
  simp [cancel_run, hload, hterm]

theorem cancel_run_terminal_noop_witness :
    cancel_run (store1 termObj) (Except.ok ()) 9 "r1" =
      ⟨Except.ok (some termObj.state), none, []⟩ ∧
    cancel_run (store1 termObj) (Except.error "transport down") 9 "r1" =
      ⟨Except.ok (some termObj.state), none, []⟩ :=
  ⟨cancel_run_terminal_noop (store1 termObj) (Except.ok ()) 9 "r1" termObj
      (by decide) (by decide),
    cancel_run_terminal_noop (store1 termObj) (Except.error "transport down") 9 "r1" termObj
      (by decide) (by decide)⟩

/-- C1 (divergence evidence): polling an active (Pending) run whose remote
status is `failed` with no logs element in the response makes `get_state`
raise `KeyError('logs')` (the Python code reads `response['logs']`) and
persist nothing, rather than persisting an Error state whose messages are
`["unknown reason"]` as the specification requires. -/
theorem get_state_missing_logs_key_error :
    (get_state_obj ⟨⟨some "failed", none⟩, 7, fun _ => true⟩ "base" "r1" pendObj).ret =
      Except.error (EngineError.keyError "logs") ∧
    (get_state_obj ⟨⟨some "failed", none⟩, 7, fun _ => true⟩ "base" "r1" pendObj).write =
      none := by
  exact ⟨rfl, rfl⟩

/-- C2 (counterexample): cancelling an active (Pending) run persists the
Error record with the message `canceled by user`, but the call returns no
state — the Python `cancel_run` only returns a state on its inactive path and
falls off the end here, returning `None` — refuting the claim that the new
Error state is returned to the caller. -/
theorem cancel_run_active_returns_none :
    (cancel_run (store1 pendObj) (Except.ok ()) 9 "r1").ret = Except.ok none ∧
    (cancel_run (store1 pendObj) (Except.ok ()) 9 "r1").write =
      some ⟨"wf-2", ["a.txt", "b.txt"], RunState.error 1 9 9 ["canceled by user"]⟩ := by
  exact ⟨rfl, rfl⟩

/-- C2 (amended): for every run in an active state, when no remote stop is
needed (Pending) or the remote stop succeeds, `cancel_run` transitions the
run to Error with the single literal message `canceled by user`, preserving
`createdAt` and (when present) `startedAt`, and persists the new record —
but it returns `None` to the caller rather than the new Error state; and for
a Running run whose remote stop fails, `cancel_run` raises
`REANABackendError` and persists nothing. -/
theorem cancel_run_active_spec (store : String → Option RunObj)
    (stop_result : Except String Unit) (now : Time)
    (run_id : String) (obj : RunObj) (hload : store run_id = some obj)
    (hact : obj.state.is_active = true) :
    ((obj.state.is_running = false ∨ stop_result = Except.ok ()) →
      (cancel_run store stop_result now run_id).ret = Except.ok none ∧
      ∃ w, (cancel_run store stop_result now run_id).write = some w ∧
        w.workflowId = obj.workflowId ∧ w.outputs = obj.outputs ∧
        w.state.stage = Stage.error ∧
        w.state.messages = ["canceled by user"] ∧
        w.state.created_at = obj.state.created_at ∧
        ∀ s, obj.state.started_at = some s → w.state.started_at = some s) ∧
    ∀ msg, obj.state.is_running = true → stop_result = Except.error msg →
      (cancel_run store stop_result now run_id).ret =
        Except.error (EngineError.reanaBackendError msg) ∧
      (cancel_run store stop_result now run_id).write = none := by
  constructor
  · intro hok
    have hw : cancel_run store stop_result now run_id =
        ⟨Except.ok none,
          some { obj with state := RunState.to_error obj.state ["canceled by user"] now },
          if obj.state.is_running then [RemoteCall.stop obj.workflowId] else []⟩ := by
      cases hrun : obj.state.is_running with
      | false => simp [cancel_run, hload, hact, hrun]
      | true =>
        rcases hok with hb | hs
        · rw [hrun] at hb; cases hb
        · subst hs
          simp [cancel_run, hload, hact, hrun]
    refine ⟨by rw [hw], ?_⟩
    refine ⟨{ obj with state := RunState.to_error obj.state ["canceled by user"] now },
      by rw [hw], rfl, rfl, to_error_stage _ _ _, to_error_messages _ _ _,
      to_error_created_at _ _ _, ?_⟩
    intro s hs
    exact to_error_started_at _ _ _ _ hs
  · intro msg hrun hstop
    subst hstop
    constructor <;> simp [cancel_run, hload, hact, hrun]

theorem cancel_run_active_spec_witness :
    ((cancel_run (store1 runObj) (Except.ok ()) 9 "r1").ret = Except.ok none ∧
      ∃ w, (cancel_run (store1 runObj) (Except.ok ()) 9 "r1").write = some w ∧
        w.workflowId = runObj.workflowId ∧ w.outputs = runObj.outputs ∧
        w.state.stage = Stage.error ∧
        w.state.messages = ["canceled by user"] ∧
        w.state.created_at = runObj.state.created_at ∧
        ∀ s, runObj.state.started_at = some s → w.state.started_at = some s) ∧
    ((cancel_run (store1 runObj) (Except.error "transport down") 9 "r1").ret =
        Except.error (EngineError.reanaBackendError "transport down") ∧
      (cancel_run (store1 runObj) (Except.error "transport down") 9 "r1").write = none) :=
  ⟨(cancel_run_active_spec (store1 runObj) (Except.ok ()) 9 "r1" runObj
      (by decide) (by decide)).1 (Or.inr rfl),
    (cancel_run_active_spec (store1 runObj) (Except.error "transport down") 9 "r1" runObj
      (by decide) (by decide)).2 "transport down" (by decide) rfl⟩

/-- C3 (counterexample): with the raw token `running` and a current state
that is terminal Error — a state that is "not already Running" — the claim's
first rule demands target Running, but `modify_state` leaves the state
unchanged: rule 1 in the code additionally requires the current state to be
Pending. -/
theorem modify_state_rule1_counterexample :
    modify_state ⟨some "running", none⟩ (RunState.error 0 0 0 []) 5 =
      RunState.error 0 0 0 [] ∧
    (modify_state ⟨some "running", none⟩ (RunState.error 0 0 0 []) 5).stage ≠
      Stage.running := by
  exact ⟨rfl, fun h => nomatch h⟩

/-- C3 (amended): `modify_state` implements the ordered first-match-wins
classifier table, with rule 1 requiring the current state to be active and
not already Running (i.e. Pending): a RUNNING-vocabulary token then yields a
Running state stamped with the current time; an ERROR-vocabulary token on an
active state yields an Error state whose single message is the reported logs
text, or `unknown reason` when the response carries none; a SUCCESS-vocabulary
token on an active state yields a Success state; every other combination —
including unrecognized tokens and already-terminal current states — returns
the current state unchanged, and the classifier is a total function (it never
raises). -/
theorem modify_state_table (response : StatusResponse) (current : RunState) (now : Time) :
    match classifier_table response.status current.stage with
    | StateChange.toRunning =>
        modify_state response current now = current.start now ∧
        (modify_state response current now).stage = Stage.running ∧
        (modify_state response current now).created_at = current.created_at ∧
        (modify_state response current now).started_at = some now
    | StateChange.toError =>
        (modify_state response current now).stage = Stage.error ∧
        (modify_state response current now).messages =
          [(response.logs).getD "unknown reason"] ∧
        (modify_state response current now).created_at = current.created_at
    | StateChange.toSuccess =>
        (modify_state response current now).stage = Stage.success ∧
        (modify_state response current now).created_at = current.created_at
    | StateChange.noChange => modify_state response current now = current := by
  cases current <;>
    by_cases h1 : statusIn response.status REANA_STATE_RUNNING = true <;>
    by_cases h2 : statusIn response.status REANA_STATE_ERROR = true <;>
    by_cases h3 : statusIn response.status REANA_STATE_SUCCESS = true <;>
    simp [modify_state, classifier_table, h1, h2, h3, RunState.is_pending,
      RunState.is_active, RunState.stage, Stage.isActive, RunState.start,
      RunState.to_error, RunState.to_success, RunState.created_at,
      RunState.started_at, RunState.messages]

theorem stage_le_refl (s : Stage) : Stage.le s s = true := by
  cases s <;> rfl

theorem get_state_obj_write_stage_le (o : StatusOracle) (base_dir run_id : String)
    (obj : RunObj) (w : RunObj)
    (h : (get_state_obj o base_dir run_id obj).write = some w) :
    Stage.le obj.state.stage w.state.stage = true := by
  obtain ⟨wid, outs, st⟩ := obj
  cases st <;> unfold get_state_obj at h <;>
    simp only [RunState.is_active, Bool.not_true, Bool.not_false, if_true, if_false,
      ite_true, ite_false] at h <;>
    (try split at h) <;> (try split at h) <;> (try split at h) <;>
    (try split at h) <;> (try split at h) <;>
    all_goals solve
      | simp_all [RunState.stage, Stage.le, RunState.is_running, RunState.is_active]
      | (rw [← Option.some.inj h]; rfl)

theorem poll_step_stage_le (o : StatusOracle) (base_dir run_id : String) (obj : RunObj) :
    Stage.le obj.state.stage (poll_step o base_dir run_id obj).state.stage = true := by
  unfold poll_step
  cases h : (get_state_obj o base_dir run_id obj).write with
  | none => exact stage_le_refl _
  | some w => exact get_state_obj_write_stage_le o base_dir run_id obj w h

theorem poll_trace_head (base_dir run_id : String) (obj : RunObj)
    (os : List StatusOracle) :
    (poll_trace base_dir run_id obj os).head? = some obj := by
  cases os <;> rfl

/-- C5: for every sequence of status responses applied to a run by repeated
`get_state` polls, the observed sequence of persisted stages is a chain of
`Stage.le`, i.e. a subsequence of Pending → Running → {Error, Success}; no
transition regresses the stage and neither terminal stage is ever left. -/
theorem get_state_stage_monotone (base_dir run_id : String) (obj : RunObj)
    (os : List StatusOracle) :
    List.Chain' (fun x y : RunObj => Stage.le x.state.stage y.state.stage = true)
      (poll_trace base_dir run_id obj os) := by
  induction os generalizing obj with
  | nil => simp [poll_trace]
  | cons o os ih =>
    rw [poll_trace, List.chain'_cons']
    refine ⟨?_, ih _⟩
    intro y hy
    rw [poll_trace_head] at hy
    simp only [Option.mem_def, Option.some.injEq] at hy
    subst hy
    exact poll_step_stage_le o base_dir run_id _

/-- C6: when `execute` fails at any step after the run directory was created
(argument validation is the only step that runs before the directory is
made), the run directory is destroyed before the original error is re-raised
and no state record survives, so the caller never observes a half-created
run; in particular a remote workflow-creation failure propagates unchanged
as `REANABackendError` with its original message. -/
theorem execute_rollback (o : ExecOracle) (e : EngineError)
    (hv : o.validate_ok = true) (h : (execute o).ret = Except.error e) :
    (execute o).dir_created = true ∧ (execute o).dir_exists = false ∧
    (execute o).write = none ∧
    ∀ msg, o.replace_ok = true → o.create_result = Except.error msg →
      e = EngineError.reanaBackendError msg := by
  cases hr : o.replace_ok with
  | false =>
    refine ⟨?_, ?_, ?_, ?_⟩ <;> simp_all [execute]
  | true =>
    cases hc : o.create_result with
    | error msg =>
      have he : e = EngineError.reanaBackendError msg := by
        simp_all [execute]
      refine ⟨?_, ?_, ?_, ?_⟩ <;> simp_all [execute]
    | ok wid =>
      cases hu : upload_entries wid o.uploads with
      | mk r ucalls =>
        cases r with
        | error eu =>
          refine ⟨?_, ?_, ?_, ?_⟩ <;> simp_all [execute]
        | ok u =>
          cases hs : o.start_ok with
          | false => refine ⟨?_, ?_, ?_, ?_⟩ <;> simp_all [execute]
          | true =>
            cases hw : o.write_ok with
            | false => refine ⟨?_, ?_, ?_, ?_⟩ <;> simp_all [execute]
            | true => simp_all [execute]

theorem execute_rollback_witness :
    (⟨true, "run-1", true, Except.error "boom", [], true, true, 4, ["out.txt"]⟩ :
        ExecOracle).validate_ok = true ∧
    (execute ⟨true, "run-1", true, Except.error "boom", [], true, true, 4, ["out.txt"]⟩).ret =
      Except.error (EngineError.reanaBackendError "boom") ∧
    (execute ⟨true, "run-1", true, Except.error "boom", [], true, true, 4, ["out.txt"]⟩).dir_created
      = true ∧
    (execute ⟨true, "run-1", true, Except.error "boom", [], true, true, 4, ["out.txt"]⟩).dir_exists
      = false ∧
    (execute ⟨true, "run-1", true, Except.error "boom", [], true, true, 4, ["out.txt"]⟩).write
      = none := by
  have h := execute_rollback
    ⟨true, "run-1", true, Except.error "boom", [], true, true, 4, ["out.txt"]⟩
    (EngineError.reanaBackendError "boom") rfl (by simp [execute, upload_entries])
  exact ⟨rfl, by simp [execute, upload_entries], h.1, h.2.1, h.2.2.1⟩

/-- C7: a run state carries non-empty resources only in the Success variant;
and when a poll of an active run produces a Success state, the key set of
its resources equals the run's declared outputs exactly, every key is mapped
to its downloaded location beneath the run's files directory, and the new
record is persisted. -/
theorem get_state_success_resources (o : StatusOracle) (base_dir run_id : String)
    (obj : RunObj) (st : RunState)
    (hact : obj.state.is_active = true)
    (hret : (get_state_obj o base_dir run_id obj).ret = Except.ok (some st))
    (hsucc : st.is_success = true) :
    (∀ s : RunState, s.resources ≠ [] → s.is_success = true) ∧
    (∀ k, k ∈ st.resources.map Prod.fst ↔ k ∈ obj.outputs) ∧
    (∀ p ∈ st.resources, p.2 = pjoin (pjoin (pjoin base_dir run_id) "files") p.1) ∧
    (get_state_obj o base_dir run_id obj).write = some { obj with state := st } := by
  have hres : ∀ s : RunState, s.resources ≠ [] → s.is_success = true := by
    intro s hs
    cases s <;> simp_all [RunState.resources, RunState.is_success]
  by_cases h1 : (statusIn o.response.status REANA_STATE_RUNNING && !obj.state.is_running) = true
  · have hx : (get_state_obj o base_dir run_id obj).ret =
        Except.ok (some (RunState.running obj.state.created_at
          (if obj.state.is_running then obj.state.started_at_or 0 else o.now))) := by
      simp [get_state_obj, hact, h1]
    rw [hret] at hx
    have hst := Option.some.inj (Except.ok.inj hx)
    rw [hst] at hsucc
    simp [RunState.is_success] at hsucc
  · by_cases h2 : statusIn o.response.status REANA_STATE_ERROR = true
    · cases hl : o.response.logs with
      | none =>
        have hx : (get_state_obj o base_dir run_id obj).ret =
            Except.error (EngineError.keyError "logs") := by
          simp [get_state_obj, hact, h1, h2, hl]
        rw [hret] at hx
        cases hx
      | some logs =>
        have hx : (get_state_obj o base_dir run_id obj).ret =
            Except.ok (some (RunState.error obj.state.created_at
              (if obj.state.is_running then obj.state.started_at_or 0 else o.now)
              o.now [logs])) := by
          simp [get_state_obj, hact, h1, h2, hl]
        rw [hret] at hx
        have hst := Option.some.inj (Except.ok.inj hx)
        rw [hst] at hsucc
        simp [RunState.is_success] at hsucc
    · by_cases h3 : statusIn o.response.status REANA_STATE_SUCCESS = true
      · cases hdl : download_results o obj.workflowId
            (pjoin (pjoin base_dir run_id) "files") obj.outputs with
        | mk r dcalls =>
          cases r with
          | ok resources =>
            have hx : (get_state_obj o base_dir run_id obj).ret =
                Except.ok (some (RunState.success obj.state.created_at
                  (if obj.state.is_running then obj.state.started_at_or 0 else o.now)
                  o.now resources)) := by
              simp [get_state_obj, hact, h1, h2, h3, hdl]
            have hw : (get_state_obj o base_dir run_id obj).write =
                some ⟨obj.workflowId, obj.outputs,
                  RunState.success obj.state.created_at
                    (if obj.state.is_running then obj.state.started_at_or 0 else o.now)
                    o.now resources⟩ := by
              simp [get_state_obj, hact, h1, h2, h3, hdl]
            rw [hret] at hx
            have hst := Option.some.inj (Except.ok.inj hx)
            obtain ⟨hmap, hval⟩ := download_results_ok_spec o obj.workflowId
              (pjoin (pjoin base_dir run_id) "files") obj.outputs resources dcalls hdl
            refine ⟨hres, ?_, ?_, ?_⟩
            · intro k
              rw [hst]
              rw [show (RunState.success obj.state.created_at
                  (if obj.state.is_running then obj.state.started_at_or 0 else o.now)
                  o.now resources).resources = resources from rfl, hmap]
            · intro p hp
              rw [hst] at hp
              exact hval p hp
            · rw [hw, hst]
          | error err =>
            have hx : (get_state_obj o base_dir run_id obj).ret = Except.error err := by
              simp [get_state_obj, hact, h1, h2, h3, hdl]
            rw [hret] at hx
            cases hx
      · have hx : (get_state_obj o base_dir run_id obj).ret =
            Except.ok (some obj.state) := by
          simp [get_state_obj, hact, h1, h2, h3]
        rw [hret] at hx
        have hst := Option.some.inj (Except.ok.inj hx)
        rw [hst] at hsucc
        cases hobj : obj.state <;> simp_all [RunState.is_active, RunState.is_success]

theorem get_state_success_resources_witness :
    (∀ s : RunState, s.resources ≠ [] → s.is_success = true) ∧
    (∀ k, k ∈ (RunState.success 1 9 9
        [("a.txt", "base/r1/files/a.txt"), ("b.txt", "base/r1/files/b.txt")]).resources.map
        Prod.fst ↔ k ∈ pendObj.outputs) ∧
    (∀ p ∈ (RunState.success 1 9 9
        [("a.txt", "base/r1/files/a.txt"), ("b.txt", "base/r1/files/b.txt")]).resources,
      p.2 = pjoin (pjoin (pjoin "base" "r1") "files") p.1) ∧
    (get_state_obj oracleFinished "base" "r1" pendObj).write =
      some ⟨pendObj.workflowId, pendObj.outputs, RunState.success 1 9 9
        [("a.txt", "base/r1/files/a.txt"), ("b.txt", "base/r1/files/b.txt")]⟩ :=
  get_state_success_resources oracleFinished "base" "r1" pendObj
    (RunState.success 1 9 9
      [("a.txt", "base/r1/files/a.txt"), ("b.txt", "base/r1/files/b.txt")])
    (by decide) (by decide) (by decide)

/-- C8: when a poll of an active run classifies to Success but downloading
some declared output fails, `get_state` fails with `REANABackendError`, no
write is performed and the persisted record is left at its prior stage, so
the next poll retries the same transition. -/
theorem get_state_download_failure (o : StatusOracle) (base_dir run_id : String)
    (obj : RunObj)
    (hact : obj.state.is_active = true)
    (htok : statusIn o.response.status REANA_STATE_SUCCESS = true)
    (hfail : ∃ f ∈ obj.outputs, o.download_ok f = false) :
    (∃ m, (get_state_obj o base_dir run_id obj).ret =
      Except.error (EngineError.reanaBackendError m)) ∧
    (get_state_obj o base_dir run_id obj).write = none ∧
    poll_step o base_dir run_id obj = obj := by
  have hst := statusIn_success_eq _ htok
  have h1 : statusIn o.response.status REANA_STATE_RUNNING = false := by
    rw [hst]; rfl
  have h2 : statusIn o.response.status REANA_STATE_ERROR = false := by
    rw [hst]; rfl
  obtain ⟨m, calls, hdl⟩ := download_results_fail_spec o obj.workflowId
    (pjoin (pjoin base_dir run_id) "files") obj.outputs hfail
  have hr : (get_state_obj o base_dir run_id obj).ret =
      Except.error (EngineError.reanaBackendError m) := by
    simp [get_state_obj, hact, h1, h2, htok, hdl]
  have hw : (get_state_obj o base_dir run_id obj).write = none := by
    simp [get_state_obj, hact, h1, h2, htok, hdl]
  exact ⟨⟨m, hr⟩, hw, by simp [poll_step, hw]⟩

theorem get_state_download_failure_witness :
    (∃ m, (get_state_obj oracleFinishedBad "base" "r1" pendObj).ret =
      Except.error (EngineError.reanaBackendError m)) ∧
    (get_state_obj oracleFinishedBad "base" "r1" pendObj).write = none ∧
    poll_step oracleFinishedBad "base" "r1" pendObj = pendObj :=
  get_state_download_failure oracleFinishedBad "base" "r1" pendObj
    (by decide) (by decide) ⟨"b.txt", by decide, by decide⟩

mutual

theorem upload_file_eq (wid : String) (e : FSEntry) :
    upload_file wid e =
      (if hasFile e then Except.error (EngineError.nameError "soure") else Except.ok (),
        []) := by
  cases e with
  | file n => rfl
  | dir n entries =>
    rw [upload_file, hasFile]
    exact upload_entries_eq wid entries

theorem upload_entries_eq (wid : String) (l : List FSEntry) :
    upload_entries wid l =
      (if hasFileList l then Except.error (EngineError.nameError "soure") else Except.ok (),
        []) := by
  cases l with
  | nil => rfl
  | cons e rest =>
    rw [upload_entries, upload_file_eq wid e, hasFileList]
    by_cases he : hasFile e = true
    · simp [he]
    · simp only [Bool.not_eq_true] at he
      simp only [he, if_false, Bool.false_or]
      rw [upload_entries_eq wid rest]
      by_cases hr : hasFileList rest = true <;> simp [hr]

end

/-- C10: the benchreana uploader's plain-file branch evaluates
`open(soure, 'rb')` where the name `soure` is undefined, so uploading any
non-directory source raises `NameError` before any remote upload call is
issued, and the error is a `NameError`, not a wrapped `REANABackendError`;
consequently every `execute` invocation whose resolved input files contain at
least one plain file fails. -/
theorem upload_file_name_error :
    (∀ wid name, upload_file wid (FSEntry.file name) =
      (Except.error (EngineError.nameError "soure"), [])) ∧
    ∀ o : ExecOracle, hasFileList o.uploads = true →
      ∃ e, (execute o).ret = Except.error e := by
  refine ⟨fun wid name => rfl, ?_⟩
  intro o hfl
  cases hv : o.validate_ok with
  | false => exact ⟨EngineError.missingArgumentError, by simp [execute, hv]⟩
  | true =>
    cases hr : o.replace_ok with
    | false => exact ⟨EngineError.invalidTemplateError, by simp [execute, hv, hr]⟩
    | true =>
      cases hc : o.create_result with
      | error msg =>
        exact ⟨EngineError.reanaBackendError msg, by simp [execute, hv, hr, hc]⟩
      | ok wid =>
        refine ⟨EngineError.nameError "soure", ?_⟩
        have hu : upload_entries wid o.uploads =
            (Except.error (EngineError.nameError "soure"), []) := by
          rw [upload_entries_eq, if_pos hfl]
        simp [execute, hv, hr, hc, hu]

theorem upload_file_name_error_witness :
    hasFileList [FSEntry.dir "data" [FSEntry.file "names.txt"]] = true ∧
    ∃ e, (execute ⟨true, "run-2", true, Except.ok "wf-9",
      [FSEntry.dir "data" [FSEntry.file "names.txt"]], true, true, 4, ["out.txt"]⟩).ret =
        Except.error e :=
  ⟨by rfl, upload_file_name_error.2
    ⟨true, "run-2", true, Except.ok "wf-9",
      [FSEntry.dir "data" [FSEntry.file "names.txt"]], true, true, 4, ["out.txt"]⟩
    (by rfl)⟩

end BenchReana
